import Mathlib

/-!
Verification of the Bristol-format boolean-circuit parser in
`src/circuit.rs`.

The Rust code signals every failure by panicking (`unwrap` on a failed
integer parse, `assert_eq!` on arity and port-count checks,
`unimplemented!()` for recognized-but-unsupported gate tags,
`panic!("Unknown gate type!")` for unrecognized tags, and index/slice
out-of-bounds panics).  The shallow embedding models each distinct panic
site as a distinct constructor of `ParseError`, and every fallible
function returns `Except ParseError _`; evaluation order of the panics is
preserved, so the embedding fails with the error of the first panic the
Rust code would hit.

Machine integers (`u32`, `usize`) are modelled as `Nat` with the range
check of Rust's `str::parse` made explicit.
-/

/-- The distinct panic sites of the parser, as an error type. -/
inductive ParseError where
  /-- `assert_eq!(header_line[1..].len(), num_ports)` in
  `parse_header_io_wires`. -/
  | structuralError
  /-- `.parse().unwrap()` on a token that is not a valid non-negative
  in-range integer. -/
  | malformedNumber
  /-- `assert_eq!` on the in/out count tokens in the per-gate parsers. -/
  | arityMismatch
  /-- `unimplemented!()` for the tags EQ, EQW, MAND. -/
  | unsupportedGateType
  /-- `panic!("Unknown gate type!")` for any other tag. -/
  | unknownGateType
  /-- A slice or index out-of-bounds panic, including
  `.last().unwrap()` on an empty token list. -/
  | indexOutOfBounds
deriving DecidableEq, Repr

/-- `enum Gate` of `circuit.rs`: one variant per supported logic
operation, each field a wire identifier. -/
inductive Gate where
  | XOR (input_a input_b output : Nat)
  | AND (input_a input_b output : Nat)
  | INV (input output : Nat)
deriving DecidableEq, Repr

/-- `struct Header` of `circuit.rs`. -/
structure Header where
  num_gates : Nat
  num_wires : Nat
  num_input_wires : List Nat
  num_output_wires : List Nat
deriving DecidableEq, Repr

/-- `struct Circuit` of `circuit.rs`: a header plus the ordered gate
sequence. -/
structure Circuit where
  header : Header
  gates : List Gate
deriving DecidableEq, Repr

/-- Numeric value of a decimal digit sequence (most significant first). -/
def digitsVal (cs : List Char) : Nat :=
  cs.foldl (fun acc c => acc * 10 + (c.toNat - 48)) 0

/-- Rust's `str::parse` for an unsigned integer type with exclusive upper
bound `bound`: an optional leading plus sign, then one or more ASCII
digits, and the value must lie below the bound; anything else
(empty string, minus sign, non-digit characters, out of range) fails. -/
def parseRadix10 (s : String) (bound : Nat) : Option Nat :=
  let cs := s.data
  let digits := match cs with
    | c :: rest => if c = '+' then rest else cs
    | [] => []
  match digits with
  | [] => none
  | _ :: _ =>
    if digits.all (fun c => c.isDigit) then
      let n := digitsVal digits
      if n < bound then some n else none
    else none

/-- `str::parse::<u32>` — the type of every stored numeric field. -/
def parseU32 (s : String) : Option Nat := parseRadix10 s (2 ^ 32)

/-- `str::parse::<usize>` — used only for the port count token of an
input/output header line; 64-bit range on the common targets. -/
def parseUsize (s : String) : Option Nat := parseRadix10 s (2 ^ 64)

/-- `.parse::<u32>().unwrap()`: a failed parse is a panic, modelled as
`ParseError.malformedNumber`. -/
def parseU32E (s : String) : Except ParseError Nat :=
  match parseU32 s with
  | some n => .ok n
  | none => .error .malformedNumber

/-- `.parse::<usize>().unwrap()` for the port count token. -/
def parseUsizeE (s : String) : Except ParseError Nat :=
  match parseUsize s with
  | some n => .ok n
  | none => .error .malformedNumber

/-- Rust slice indexing `xs[i]`: out of bounds is a panic. -/
def getIdx (xs : List String) (i : Nat) : Except ParseError String :=
  match xs[i]? with
  | some x => .ok x
  | none => .error .indexOutOfBounds

/-- Split a character sequence at every character satisfying `p`,
keeping the (possibly empty) segments between the separators. -/
def splitOnPred (p : Char → Bool) : List Char → List (List Char)
  | [] => [[]]
  | c :: cs =>
    if p c then [] :: splitOnPred p cs
    else
      match splitOnPred p cs with
      | [] => [[c]]
      | t :: ts => (c :: t) :: ts

/-- Rust's `str::split_whitespace`: the non-empty maximal runs of
non-whitespace characters, in order. -/
def splitWhitespace (s : String) : List String :=
  ((splitOnPred (fun c => c.isWhitespace) s.data).filter
    (fun t => t ≠ [])).map String.mk

/-- Strip one trailing carriage return, as `str::lines` does for a line
terminated by a CRLF sequence. -/
def stripTrailingCR (l : List Char) : List Char :=
  if l.getLast? = some (Char.ofNat 13) then l.dropLast else l

/-- Rust's `str::lines`: split at newlines, strip a carriage return
preceding each newline, and do not produce a final empty line for a
trailing newline.  A final segment not terminated by a newline keeps any
trailing carriage return. -/
def rustLines (s : String) : List String :=
  match splitOnPred (fun c => c = Char.ofNat 10) s.data with
  | [] => []
  | parts =>
    let body := parts.dropLast.map stripTrailingCR
    let last := parts.getLastD []
    (if last = [] then body else body ++ [last]).map String.mk

/-- First line of the header:
`(header_line[0].parse().unwrap(), header_line[1].parse().unwrap())`
after splitting on whitespace.  Tokens past the second are never
accessed. -/
def parse_header_general (header_line : String) : Except ParseError (Nat × Nat) :=
  let toks := splitWhitespace header_line
  match getIdx toks 0 with
  | .error e => .error e
  | .ok t0 =>
    match parseU32E t0 with
    | .error e => .error e
    | .ok num_gates =>
      match getIdx toks 1 with
      | .error e => .error e
      | .ok t1 =>
        match parseU32E t1 with
        | .error e => .error e
        | .ok num_wires => .ok (num_gates, num_wires)

/-- Map a fallible parser over a list, stopping at the first failure, as
the Rust `for` loop of pushes does. -/
def mapParse (f : String → Except ParseError α) : List String → Except ParseError (List α)
  | [] => .ok []
  | x :: xs =>
    match f x with
    | .error e => .error e
    | .ok y =>
      match mapParse f xs with
      | .error e => .error e
      | .ok ys => .ok (y :: ys)

/-- Second/third line of the header: the port count token, then — after
`assert_eq!(header_line[1..].len(), num_ports)` — the per-port wire
counts parsed in order. -/
def parse_header_io_wires (header_line : String) : Except ParseError (List Nat) :=
  let toks := splitWhitespace header_line
  match getIdx toks 0 with
  | .error e => .error e
  | .ok t0 =>
    match parseUsizeE t0 with
    | .error e => .error e
    | .ok num_ports =>
      if (toks.drop 1).length = num_ports then
        mapParse parseU32E (toks.drop 1)
      else .error .structuralError

/-- `parse_header`: the three header lines, by position. -/
def parse_header (header_lines : List String) : Except ParseError Header :=
  match getIdx header_lines 0 with
  | .error e => .error e
  | .ok l0 =>
    match parse_header_general l0 with
    | .error e => .error e
    | .ok gw =>
      match getIdx header_lines 1 with
      | .error e => .error e
      | .ok l1 =>
        match parse_header_io_wires l1 with
        | .error e => .error e
        | .ok num_input_wires =>
          match getIdx header_lines 2 with
          | .error e => .error e
          | .ok l2 =>
            match parse_header_io_wires l2 with
            | .error e => .error e
            | .ok num_output_wires =>
              .ok ⟨gw.1, gw.2, num_input_wires, num_output_wires⟩

/-- `parse_gate_xor`: assert the count tokens are "2" and "1", then the
wire identifiers at positions 2, 3, 4. -/
def parse_gate_xor (gate_line : List String) : Except ParseError Gate :=
  match getIdx gate_line 0 with
  | .error e => .error e
  | .ok t0 =>
    if t0 = "2" then
      match getIdx gate_line 1 with
      | .error e => .error e
      | .ok t1 =>
        if t1 = "1" then
          match getIdx gate_line 2 with
          | .error e => .error e
          | .ok s2 =>
            match parseU32E s2 with
            | .error e => .error e
            | .ok input_a =>
              match getIdx gate_line 3 with
              | .error e => .error e
              | .ok s3 =>
                match parseU32E s3 with
                | .error e => .error e
                | .ok input_b =>
                  match getIdx gate_line 4 with
                  | .error e => .error e
                  | .ok s4 =>
                    match parseU32E s4 with
                    | .error e => .error e
                    | .ok output => .ok (Gate.XOR input_a input_b output)
        else .error .arityMismatch
    else .error .arityMismatch

/-- `parse_gate_and`: identical shape to the XOR case, producing an AND
gate. -/
def parse_gate_and (gate_line : List String) : Except ParseError Gate :=
  match getIdx gate_line 0 with
  | .error e => .error e
  | .ok t0 =>
    if t0 = "2" then
      match getIdx gate_line 1 with
      | .error e => .error e
      | .ok t1 =>
        if t1 = "1" then
          match getIdx gate_line 2 with
          | .error e => .error e
          | .ok s2 =>
            match parseU32E s2 with
            | .error e => .error e
            | .ok input_a =>
              match getIdx gate_line 3 with
              | .error e => .error e
              | .ok s3 =>
                match parseU32E s3 with
                | .error e => .error e
                | .ok input_b =>
                  match getIdx gate_line 4 with
                  | .error e => .error e
                  | .ok s4 =>
                    match parseU32E s4 with
                    | .error e => .error e
                    | .ok output => .ok (Gate.AND input_a input_b output)
        else .error .arityMismatch
    else .error .arityMismatch

/-- `parse_gate_inv`: assert the count tokens are "1" and "1", then the
wire identifiers at positions 2 and 3. -/
def parse_gate_inv (gate_line : List String) : Except ParseError Gate :=
  match getIdx gate_line 0 with
  | .error e => .error e
  | .ok t0 =>
    if t0 = "1" then
      match getIdx gate_line 1 with
      | .error e => .error e
      | .ok t1 =>
        if t1 = "1" then
          match getIdx gate_line 2 with
          | .error e => .error e
          | .ok s2 =>
            match parseU32E s2 with
            | .error e => .error e
            | .ok input =>
              match getIdx gate_line 3 with
              | .error e => .error e
              | .ok s3 =>
                match parseU32E s3 with
                | .error e => .error e
                | .ok output => .ok (Gate.INV input output)
        else .error .arityMismatch
    else .error .arityMismatch

/-- `parse_gate`: split on whitespace, dispatch on the last token
(`.last().unwrap()` panics on an empty token list); EQ/EQW/MAND hit
`unimplemented!()`, any other tag `panic!("Unknown gate type!")`. -/
def parse_gate (gate_line : String) : Except ParseError Gate :=
  let toks := splitWhitespace gate_line
  match toks.getLast? with
  | none => .error .indexOutOfBounds
  | some tag =>
    if tag = "XOR" then parse_gate_xor toks
    else if tag = "AND" then parse_gate_and toks
    else if tag = "INV" ∨ tag = "NOT" then parse_gate_inv toks
    else if tag = "EQ" ∨ tag = "EQW" ∨ tag = "MAND" then .error .unsupportedGateType
    else .error .unknownGateType

/-- `Circuit::parse` after the line collection: slice the first three
lines for the header (`&circuit[0..3]` panics when fewer than three
lines exist), then parse each remaining line as a gate, in order. -/
def Circuit.parseLines (ls : List String) : Except ParseError Circuit :=
  if ls.length < 3 then .error .indexOutOfBounds
  else
    match parse_header (ls.take 3) with
    | .error e => .error e
    | .ok header =>
      match mapParse parse_gate (ls.drop 3) with
      | .error e => .error e
      | .ok gates => .ok ⟨header, gates⟩

/-- The line collection of `Circuit::parse`:
`circuit.lines().filter(|line| !line.is_empty())`, applied to an
already-split line list. -/
def Circuit.parseRawLines (ls : List String) : Except ParseError Circuit :=
  Circuit.parseLines (ls.filter (fun l => !l.isEmpty))

/-- `Circuit::parse`, the entry point: split the raw text into lines,
drop the empty ones, and assemble header and gates. -/
def Circuit.parse (s : String) : Except ParseError Circuit :=
  Circuit.parseRawLines (rustLines s)

/-! ### Helper lemmas -/

theorem getIdx_of_some {xs : List String} {i : Nat} {x : String}
    (h : xs[i]? = some x) : getIdx xs i = .ok x := by
  simp [getIdx, h]

theorem parseU32E_of_some {s : String} {n : Nat}
    (h : parseU32 s = some n) : parseU32E s = .ok n := by
  simp [parseU32E, h]

theorem parseU32E_of_none {s : String}
    (h : parseU32 s = none) : parseU32E s = .error .malformedNumber := by
  simp [parseU32E, h]

theorem parseUsizeE_of_some {s : String} {n : Nat}
    (h : parseUsize s = some n) : parseUsizeE s = .ok n := by
  simp [parseUsizeE, h]

/-! ### Claim theorems -/

/-- C1: the ten-line end-to-end input from the spec parses to exactly the
header with num_gates 4, num_wires 8, input wire counts [1,1,1,1], output
wire counts [1], and the gate sequence AND(0,1,4), AND(2,3,5),
AND(4,5,6), INV(6,7) in that order. -/
theorem parse_tiny_circuit_exact :
    Circuit.parse "4 8\n4 1 1 1 1\n1 1\n\n2 1 0 1 4 AND\n2 1 2 3 5 AND\n2 1 4 5 6 AND\n1 1 6 7 INV" =
      .ok ⟨⟨4, 8, [1, 1, 1, 1], [1]⟩,
           [Gate.AND 0 1 4, Gate.AND 2 3 5, Gate.AND 4 5 6, Gate.INV 6 7]⟩ := by
  rfl

/-- C9: the first header line is read positionally — token 0 is
num_gates, token 1 is num_wires, and any extra trailing tokens are
ignored without failing. -/
theorem header_general_positional (line t0 t1 : String) (a b : Nat)
    (h0 : (splitWhitespace line)[0]? = some t0)
    (h1 : (splitWhitespace line)[1]? = some t1)
    (ha : parseU32 t0 = some a) (hb : parseU32 t1 = some b) :
    parse_header_general line = .ok (a, b) := by
  simp [parse_header_general, getIdx, parseU32E, h0, h1, ha, hb]

/-- C9 witness: the line "42 1337 junk" yields num_gates 42 and
num_wires 1337, with the trailing token ignored. -/
theorem header_general_positional_witness :
    parse_header_general "42 1337 junk" = .ok (42, 1337) :=
  header_general_positional "42 1337 junk" "42" "1337" 42 1337 rfl rfl rfl rfl

/-- C2: a gate line with a supported trailing tag and well-formed
count/wire tokens parses to the gate variant named by the tag (with INV
and NOT producing the same INV kind), its wire fields taken from the
fixed token positions of the line. -/
theorem parse_gate_fields_match_tag :
    (∀ (line ta tb tc : String) (a b c : Nat),
      (splitWhitespace line).getLast? = some "XOR" →
      (splitWhitespace line)[0]? = some "2" →
      (splitWhitespace line)[1]? = some "1" →
      (splitWhitespace line)[2]? = some ta →
      (splitWhitespace line)[3]? = some tb →
      (splitWhitespace line)[4]? = some tc →
      parseU32 ta = some a → parseU32 tb = some b → parseU32 tc = some c →
      parse_gate line = .ok (Gate.XOR a b c)) ∧
    (∀ (line ta tb tc : String) (a b c : Nat),
      (splitWhitespace line).getLast? = some "AND" →
      (splitWhitespace line)[0]? = some "2" →
      (splitWhitespace line)[1]? = some "1" →
      (splitWhitespace line)[2]? = some ta →
      (splitWhitespace line)[3]? = some tb →
      (splitWhitespace line)[4]? = some tc →
      parseU32 ta = some a → parseU32 tb = some b → parseU32 tc = some c →
      parse_gate line = .ok (Gate.AND a b c)) ∧
    (∀ (line ta tb : String) (a b : Nat),
      (splitWhitespace line).getLast? = some "INV" →
      (splitWhitespace line)[0]? = some "1" →
      (splitWhitespace line)[1]? = some "1" →
      (splitWhitespace line)[2]? = some ta →
      (splitWhitespace line)[3]? = some tb →
      parseU32 ta = some a → parseU32 tb = some b →
      parse_gate line = .ok (Gate.INV a b)) ∧
    (∀ (line ta tb : String) (a b : Nat),
      (splitWhitespace line).getLast? = some "NOT" →
      (splitWhitespace line)[0]? = some "1" →
      (splitWhitespace line)[1]? = some "1" →
      (splitWhitespace line)[2]? = some ta →
      (splitWhitespace line)[3]? = some tb →
      parseU32 ta = some a → parseU32 tb = some b →
      parse_gate line = .ok (Gate.INV a b)) := by
  refine ⟨?_, ?_, ?_, ?_⟩ <;>
    intro line ta tb
  · intro tc a b c hlast h0 h1 h2 h3 h4 hpa hpb hpc
    simp [parse_gate, parse_gate_xor, getIdx, parseU32E,
      hlast, h0, h1, h2, h3, h4, hpa, hpb, hpc]
  · intro tc a b c hlast h0 h1 h2 h3 h4 hpa hpb hpc
    simp [parse_gate, parse_gate_and, getIdx, parseU32E,
      hlast, h0, h1, h2, h3, h4, hpa, hpb, hpc]
  · intro a b hlast h0 h1 h2 h3 hpa hpb
    simp [parse_gate, parse_gate_inv, getIdx, parseU32E,
      hlast, h0, h1, h2, h3, hpa, hpb]
  · intro a b hlast h0 h1 h2 h3 hpa hpb
    simp [parse_gate, parse_gate_inv, getIdx, parseU32E,
      hlast, h0, h1, h2, h3, hpa, hpb]

/-- C2 witness: "2 1 42 43 44 XOR" parses to XOR(42,43,44) and
"1 1 16 17 INV" parses to INV(16,17). -/
theorem parse_gate_fields_match_tag_witness :
    parse_gate "2 1 42 43 44 XOR" = .ok (Gate.XOR 42 43 44) ∧
    parse_gate "1 1 16 17 INV" = .ok (Gate.INV 16 17) :=
  ⟨parse_gate_fields_match_tag.1 "2 1 42 43 44 XOR" "42" "43" "44" 42 43 44
     rfl rfl rfl rfl rfl rfl rfl rfl rfl,
   parse_gate_fields_match_tag.2.2.1 "1 1 16 17 INV" "16" "17" 16 17
     rfl rfl rfl rfl rfl rfl rfl⟩

/-- C3: lines tagged EQ, EQW or MAND hit the `unimplemented` branch,
lines with a tag outside the known vocabulary hit the unknown-gate
branch, and the two failure conditions are distinct. -/
theorem gate_tag_unsupported_vs_unknown :
    (∀ (line tag : String), (splitWhitespace line).getLast? = some tag →
      tag = "EQ" ∨ tag = "EQW" ∨ tag = "MAND" →
      parse_gate line = .error .unsupportedGateType) ∧
    (∀ (line tag : String), (splitWhitespace line).getLast? = some tag →
      tag ∉ (["XOR", "AND", "INV", "NOT", "EQ", "EQW", "MAND"] : List String) →
      parse_gate line = .error .unknownGateType) ∧
    ParseError.unsupportedGateType ≠ ParseError.unknownGateType := by
  refine ⟨?_, ?_, by decide⟩
  · intro line tag hlast htag
    rcases htag with h | h | h <;> subst h <;> simp [parse_gate, hlast]
  · intro line tag hlast htag
    simp only [List.mem_cons, List.not_mem_nil, or_false, not_or] at htag
    obtain ⟨h1, h2, h3, h4, h5, h6, h7⟩ := htag
    simp [parse_gate, hlast, h1, h2, h3, h4, h5, h6, h7]

/-- C3 witness: a MAND line fails as unsupported, a FOO line fails as
unknown. -/
theorem gate_tag_unsupported_vs_unknown_witness :
    parse_gate "2 1 0 1 4 MAND" = .error .unsupportedGateType ∧
    parse_gate "2 1 0 1 4 FOO" = .error .unknownGateType :=
  ⟨gate_tag_unsupported_vs_unknown.1 "2 1 0 1 4 MAND" "MAND" rfl
     (Or.inr (Or.inr rfl)),
   gate_tag_unsupported_vs_unknown.2.1 "2 1 0 1 4 FOO" "FOO" rfl (by decide)⟩

theorem parse_gate_xor_and_arity {toks : List String} {tag : String}
    (hlast : toks.getLast? = some tag) (htag : tag = "XOR" ∨ tag = "AND")
    (hbad : toks[0]? ≠ some "2" ∨ toks[1]? ≠ some "1") :
    parse_gate_xor toks = .error .arityMismatch ∧
    parse_gate_and toks = .error .arityMismatch := by
  cases toks with
  | nil => simp at hlast
  | cons t0 rest =>
    have h0 : (t0 :: rest)[0]? = some t0 := by simp
    by_cases ht0 : t0 = "2"
    · subst ht0
      cases rest with
      | nil =>
        simp only [List.getLast?_singleton, Option.some_inj] at hlast
        rcases htag with h | h <;> rw [← hlast] at h <;> simp at h
      | cons t1 rest2 =>
        have h1 : ("2" :: t1 :: rest2)[1]? = some t1 := by simp
        by_cases ht1 : t1 = "1"
        · subst ht1
          rcases hbad with hb | hb
          · exact absurd h0 hb
          · exact absurd h1 hb
        · constructor <;> simp [parse_gate_xor, parse_gate_and, getIdx, h0, h1, ht1]
    · constructor <;> simp [parse_gate_xor, parse_gate_and, getIdx, h0, ht0]

theorem parse_gate_inv_arity {toks : List String} {tag : String}
    (hlast : toks.getLast? = some tag) (htag : tag = "INV" ∨ tag = "NOT")
    (hbad : toks[0]? ≠ some "1" ∨ toks[1]? ≠ some "1") :
    parse_gate_inv toks = .error .arityMismatch := by
  cases toks with
  | nil => simp at hlast
  | cons t0 rest =>
    have h0 : (t0 :: rest)[0]? = some t0 := by simp
    by_cases ht0 : t0 = "1"
    · subst ht0
      cases rest with
      | nil =>
        simp only [List.getLast?_singleton, Option.some_inj] at hlast
        rcases htag with h | h <;> rw [← hlast] at h <;> simp at h
      | cons t1 rest2 =>
        have h1 : ("1" :: t1 :: rest2)[1]? = some t1 := by simp
        by_cases ht1 : t1 = "1"
        · subst ht1
          rcases hbad with hb | hb
          · exact absurd h0 hb
          · exact absurd h1 hb
        · simp [parse_gate_inv, getIdx, h0, h1, ht1]
    · simp [parse_gate_inv, getIdx, h0, ht0]

/-- C5: an XOR or AND line whose first token is not "2" or whose second
token is not "1" fails with the arity assertion, and an INV or NOT line
whose first or second token is not "1" fails the same way. -/
theorem gate_arity_check :
    (∀ (line tag : String), (splitWhitespace line).getLast? = some tag →
      (tag = "XOR" ∨ tag = "AND") →
      ((splitWhitespace line)[0]? ≠ some "2" ∨ (splitWhitespace line)[1]? ≠ some "1") →
      parse_gate line = .error .arityMismatch) ∧
    (∀ (line tag : String), (splitWhitespace line).getLast? = some tag →
      (tag = "INV" ∨ tag = "NOT") →
      ((splitWhitespace line)[0]? ≠ some "1" ∨ (splitWhitespace line)[1]? ≠ some "1") →
      parse_gate line = .error .arityMismatch) := by
  constructor
  · intro line tag hlast htag hbad
    rcases htag with h | h <;> subst h <;> simp [parse_gate, hlast]
    · exact (parse_gate_xor_and_arity hlast (Or.inl rfl) hbad).1
    · exact (parse_gate_xor_and_arity hlast (Or.inr rfl) hbad).2
  · intro line tag hlast htag hbad
    rcases htag with h | h <;> subst h <;> simp [parse_gate, hlast] <;>
      [exact parse_gate_inv_arity hlast (Or.inl rfl) hbad;
       exact parse_gate_inv_arity hlast (Or.inr rfl) hbad]

/-- C5 witness: an AND line with in count "1" instead of "2" fails with
the arity assertion. -/
theorem gate_arity_check_witness :
    parse_gate "1 1 0 4 AND" = .error .arityMismatch :=
  gate_arity_check.1 "1 1 0 4 AND" "AND" rfl (Or.inr rfl) (Or.inl (by decide))

theorem parseU32_of_E_ok {s : String} {n : Nat}
    (h : parseU32E s = .ok n) : parseU32 s = some n := by
  unfold parseU32E at h
  cases hp : parseU32 s <;> rw [hp] at h <;> simp_all

theorem parseU32E_error_eq {s : String} {e : ParseError}
    (h : parseU32E s = .error e) : e = .malformedNumber := by
  unfold parseU32E at h
  cases hp : parseU32 s <;> rw [hp] at h <;> simp_all

theorem mapParse_ok_length {α : Type} {f : String → Except ParseError α}
    {ts : List String} {ys : List α}
    (h : mapParse f ts = .ok ys) : ys.length = ts.length := by
  induction ts generalizing ys with
  | nil =>
    simp only [mapParse, Except.ok.injEq] at h
    subst h; rfl
  | cons x xs ih =>
    simp only [mapParse] at h
    cases hfx : f x with
    | error e => rw [hfx] at h; simp at h
    | ok y =>
      rw [hfx] at h
      cases hrec : mapParse f xs with
      | error e => rw [hrec] at h; simp at h
      | ok ys2 =>
        rw [hrec] at h
        simp only [Except.ok.injEq] at h
        subst h
        simp [ih hrec]

theorem mapParse_ok_get {α : Type} {f : String → Except ParseError α}
    {ts : List String} {ys : List α}
    (h : mapParse f ts = .ok ys) :
    ∀ (i : Nat) (y : α), ys[i]? = some y → ∃ t, ts[i]? = some t ∧ f t = .ok y := by
  induction ts generalizing ys with
  | nil =>
    simp only [mapParse, Except.ok.injEq] at h
    subst h
    intro i y hy
    simp at hy
  | cons x xs ih =>
    simp only [mapParse] at h
    cases hfx : f x with
    | error e => rw [hfx] at h; simp at h
    | ok y0 =>
      rw [hfx] at h
      cases hrec : mapParse f xs with
      | error e => rw [hrec] at h; simp at h
      | ok ys2 =>
        rw [hrec] at h
        simp only [Except.ok.injEq] at h
        subst h
        intro i y hy
        cases i with
        | zero =>
          simp only [List.getElem?_cons_zero, Option.some_inj] at hy
          subst hy
          exact ⟨x, by simp, hfx⟩
        | succ n =>
          simp only [List.getElem?_cons_succ] at hy
          obtain ⟨t, ht, hft⟩ := ih hrec n y hy
          exact ⟨t, by simpa using ht, hft⟩

theorem mapParse_parseU32E_error {ts : List String} {t : String}
    (ht : t ∈ ts) (hbad : parseU32 t = none) :
    mapParse parseU32E ts = .error .malformedNumber := by
  induction ts with
  | nil => simp at ht
  | cons x xs ih =>
    simp only [mapParse]
    rcases List.mem_cons.mp ht with rfl | hmem
    · simp [parseU32E_of_none hbad]
    · cases hfx : parseU32E x with
      | error e =>
        have he := parseU32E_error_eq hfx
        simp [hfx, he]
      | ok y => simp [hfx, ih hmem]

/-- C4: an input/output header line whose declared port count differs
from the number of remaining tokens fails with the structural assertion;
when the counts match, a successfully returned sequence has exactly that
many entries, each the integer parsed from the token at the same
position. -/
theorem header_io_count_check :
    (∀ (line t0 : String) (n : Nat),
      (splitWhitespace line)[0]? = some t0 → parseUsize t0 = some n →
      ((splitWhitespace line).drop 1).length ≠ n →
      parse_header_io_wires line = .error .structuralError) ∧
    (∀ (line t0 : String) (n : Nat) (ws : List Nat),
      (splitWhitespace line)[0]? = some t0 → parseUsize t0 = some n →
      ((splitWhitespace line).drop 1).length = n →
      parse_header_io_wires line = .ok ws →
      ws.length = n ∧
      ∀ (i y : Nat), ws[i]? = some y →
        ∃ t, ((splitWhitespace line).drop 1)[i]? = some t ∧ parseU32 t = some y) := by
  constructor
  · intro line t0 n h0 hn hlen
    have hlen2 : ¬((splitWhitespace line).length - 1 = n) := by simpa using hlen
    simp [parse_header_io_wires, getIdx, parseUsizeE, h0, hn, hlen2]
  · intro line t0 n ws h0 hn hlen hok
    have hlen2 : (splitWhitespace line).length - 1 = n := by simpa using hlen
    have hred : parse_header_io_wires line =
        mapParse parseU32E ((splitWhitespace line).drop 1) := by
      simp [parse_header_io_wires, getIdx, parseUsizeE, h0, hn, hlen2]
    rw [hred] at hok
    refine ⟨by rw [mapParse_ok_length hok]; exact hlen, ?_⟩
    intro i y hy
    obtain ⟨t, ht, hft⟩ := mapParse_ok_get hok i y hy
    exact ⟨t, ht, parseU32_of_E_ok hft⟩

/-- C4 witness: "3 10 20" declares 3 ports but supplies 2 counts and
fails structurally; "3 10 20 30" succeeds with a 3-entry sequence. -/
theorem header_io_count_check_witness :
    parse_header_io_wires "3 10 20" = .error .structuralError ∧
    ([10, 20, 30] : List Nat).length = 3 :=
  ⟨header_io_count_check.1 "3 10 20" "3" 3 (by decide) (by decide) (by decide),
   (header_io_count_check.2 "3 10 20 30" "3" 3 [10, 20, 30]
     (by decide) (by decide) (by decide) (by rfl)).1⟩

/-- C6: with fewer than three non-empty lines the entry point fails, and
whenever it does return a circuit, the header came from a successful
parse of the first three lines and the gate list from a successful parse
of every remaining line — never a partial result. -/
theorem parse_all_or_nothing (s : String) :
    (((rustLines s).filter (fun l => !l.isEmpty)).length < 3 →
      Circuit.parse s = .error .indexOutOfBounds) ∧
    (∀ c : Circuit, Circuit.parse s = .ok c →
      parse_header (((rustLines s).filter (fun l => !l.isEmpty)).take 3) = .ok c.header ∧
      mapParse parse_gate (((rustLines s).filter (fun l => !l.isEmpty)).drop 3) = .ok c.gates) := by
  constructor
  · intro hlen
    simp [Circuit.parse, Circuit.parseRawLines, Circuit.parseLines, hlen]
  · intro c hok
    simp only [Circuit.parse, Circuit.parseRawLines, Circuit.parseLines] at hok
    by_cases hlen : ((rustLines s).filter (fun l => !l.isEmpty)).length < 3
    · rw [if_pos hlen] at hok
      exact absurd hok (by simp)
    · rw [if_neg hlen] at hok
      cases hh : parse_header (((rustLines s).filter (fun l => !l.isEmpty)).take 3) with
      | error e => rw [hh] at hok; simp at hok
      | ok hd =>
        rw [hh] at hok
        cases hg : mapParse parse_gate (((rustLines s).filter (fun l => !l.isEmpty)).drop 3) with
        | error e => rw [hg] at hok; simp at hok
        | ok gs =>
          rw [hg] at hok
          simp only [Except.ok.injEq] at hok
          subst hok
          exact ⟨rfl, rfl⟩

/-- C6 witness: an input with only one non-empty line fails. -/
theorem parse_all_or_nothing_witness :
    Circuit.parse "1 2" = .error .indexOutOfBounds :=
  (parse_all_or_nothing "1 2").1 (by decide)

/-- C7: inserting a blank line anywhere in the line sequence does not
change the parse result, and the spec's example circuit parses
identically with the blank separator line absent, present, or
repeated. -/
theorem parse_blank_line_invariant :
    (∀ (l1 l2 : List String),
      Circuit.parseRawLines (l1 ++ [""] ++ l2) = Circuit.parseRawLines (l1 ++ l2)) ∧
    Circuit.parse "4 8\n4 1 1 1 1\n1 1\n\n2 1 0 1 4 AND\n2 1 2 3 5 AND\n2 1 4 5 6 AND\n1 1 6 7 INV" =
      Circuit.parse "4 8\n4 1 1 1 1\n1 1\n2 1 0 1 4 AND\n2 1 2 3 5 AND\n2 1 4 5 6 AND\n1 1 6 7 INV" ∧
    Circuit.parse "4 8\n4 1 1 1 1\n1 1\n\n\n2 1 0 1 4 AND\n2 1 2 3 5 AND\n2 1 4 5 6 AND\n1 1 6 7 INV" =
      Circuit.parse "4 8\n4 1 1 1 1\n1 1\n2 1 0 1 4 AND\n2 1 2 3 5 AND\n2 1 4 5 6 AND\n1 1 6 7 INV" := by
  refine ⟨?_, by rfl, by rfl⟩
  intro l1 l2
  have he : ("" : String).isEmpty = true := by decide
  simp [Circuit.parseRawLines, List.filter_append, List.filter_cons, he]

/-- C7 witness: deleting a blank line from a concrete line sequence
leaves the parse result unchanged. -/
theorem parse_blank_line_invariant_witness :
    Circuit.parseRawLines ["4 8", "1 1", "1 1", "", "1 1 6 7 INV"] =
      Circuit.parseRawLines ["4 8", "1 1", "1 1", "1 1 6 7 INV"] :=
  parse_blank_line_invariant.1 ["4 8", "1 1", "1 1"] ["1 1 6 7 INV"]

/-- C10: a line of only whitespace is not empty, so the tokenizer keeps
it in the logical-line sequence; it splits into zero tokens, so when the
gate parser receives it the dispatch on the last token fails and the
whole parse fails. -/
theorem whitespace_line_not_blank :
    (" " : String).isEmpty = false ∧
    (∀ (l1 l2 : List String),
      (l1 ++ [" "] ++ l2).filter (fun l => !l.isEmpty) =
        l1.filter (fun l => !l.isEmpty) ++ [" "] ++ l2.filter (fun l => !l.isEmpty)) ∧
    splitWhitespace " " = [] ∧
    (∀ line : String, splitWhitespace line = [] →
      parse_gate line = .error .indexOutOfBounds) ∧
    Circuit.parse "4 8\n1 1\n1 1\n \n2 1 0 1 4 AND" = .error .indexOutOfBounds := by
  refine ⟨by decide, ?_, by decide, ?_, by rfl⟩
  · intro l1 l2
    have hs : (" " : String).isEmpty = false := by decide
    simp [List.filter_append, List.filter_cons, hs]
  · intro line hsplit
    simp [parse_gate, hsplit]

/-- C10 witness: the single-space line itself makes the gate parser
fail. -/
theorem whitespace_line_not_blank_witness :
    parse_gate " " = .error .indexOutOfBounds :=
  whitespace_line_not_blank.2.2.2.1 " " (by decide)

theorem getElem?_of_getIdx_ok {xs : List String} {i : Nat} {x : String}
    (h : getIdx xs i = .ok x) : xs[i]? = some x := by
  unfold getIdx at h
  cases hp : xs[i]? <;> rw [hp] at h <;> simp_all

theorem parse_header_general_ok_fields {line : String} {a b : Nat}
    (h : parse_header_general line = .ok (a, b)) :
    ∃ t0 t1, (splitWhitespace line)[0]? = some t0 ∧ parseU32 t0 = some a ∧
      (splitWhitespace line)[1]? = some t1 ∧ parseU32 t1 = some b := by
  simp only [parse_header_general] at h
  repeat' split at h
  all_goals try exact Except.noConfusion h
  simp only [Except.ok.injEq, Prod.mk.injEq] at h
  obtain ⟨rfl, rfl⟩ := h
  exact ⟨_, _, getElem?_of_getIdx_ok (by assumption), parseU32_of_E_ok (by assumption),
    getElem?_of_getIdx_ok (by assumption), parseU32_of_E_ok (by assumption)⟩

theorem parse_gate_xor_ok_fields {toks : List String} {g : Gate}
    (h : parse_gate_xor toks = .ok g) :
    ∃ ta tb tc a b c, toks[2]? = some ta ∧ parseU32 ta = some a ∧
      toks[3]? = some tb ∧ parseU32 tb = some b ∧
      toks[4]? = some tc ∧ parseU32 tc = some c ∧ g = Gate.XOR a b c := by
  simp only [parse_gate_xor] at h
  repeat' split at h
  all_goals try exact Except.noConfusion h
  simp only [Except.ok.injEq] at h
  subst h
  exact ⟨_, _, _, _, _, _, getElem?_of_getIdx_ok (by assumption),
    parseU32_of_E_ok (by assumption), getElem?_of_getIdx_ok (by assumption),
    parseU32_of_E_ok (by assumption), getElem?_of_getIdx_ok (by assumption),
    parseU32_of_E_ok (by assumption), rfl⟩

theorem parse_gate_and_ok_fields {toks : List String} {g : Gate}
    (h : parse_gate_and toks = .ok g) :
    ∃ ta tb tc a b c, toks[2]? = some ta ∧ parseU32 ta = some a ∧
      toks[3]? = some tb ∧ parseU32 tb = some b ∧
      toks[4]? = some tc ∧ parseU32 tc = some c ∧ g = Gate.AND a b c := by
  simp only [parse_gate_and] at h
  repeat' split at h
  all_goals try exact Except.noConfusion h
  simp only [Except.ok.injEq] at h
  subst h
  exact ⟨_, _, _, _, _, _, getElem?_of_getIdx_ok (by assumption),
    parseU32_of_E_ok (by assumption), getElem?_of_getIdx_ok (by assumption),
    parseU32_of_E_ok (by assumption), getElem?_of_getIdx_ok (by assumption),
    parseU32_of_E_ok (by assumption), rfl⟩

theorem parse_gate_inv_ok_fields {toks : List String} {g : Gate}
    (h : parse_gate_inv toks = .ok g) :
    ∃ ta tb a b, toks[2]? = some ta ∧ parseU32 ta = some a ∧
      toks[3]? = some tb ∧ parseU32 tb = some b ∧ g = Gate.INV a b := by
  simp only [parse_gate_inv] at h
  repeat' split at h
  all_goals try exact Except.noConfusion h
  simp only [Except.ok.injEq] at h
  subst h
  exact ⟨_, _, _, _, getElem?_of_getIdx_ok (by assumption),
    parseU32_of_E_ok (by assumption), getElem?_of_getIdx_ok (by assumption),
    parseU32_of_E_ok (by assumption), rfl⟩

/-- C8 counterexample: the port-count token of an input/output header
line is parsed with usize range, not u32 range — the token "4294967296"
(2^32) is accepted by the number parse instead of being rejected as out
of 32-bit range, and the line "4294967296 1" then fails the downstream
structural count assertion, not the number parse. -/
theorem numeric_tokens_u32_counterexample :
    parseUsize "4294967296" = some 4294967296 ∧
    parseUsizeE "4294967296" = .ok 4294967296 ∧
    ¬((4294967296 : Nat) < 2 ^ 32) ∧
    parse_header_io_wires "4294967296 1" = .error .structuralError ∧
    parse_header_io_wires "4294967296 1" ≠ .error .malformedNumber := by
  refine ⟨by rfl, by rfl, by decide, by rfl, ?_⟩
  have h1 : parse_header_io_wires "4294967296 1" = .error .structuralError := by rfl
  rw [h1]
  simp only [ne_eq, Except.error.injEq]
  decide

/-- C8 (amended): every token parsed into a u32 field — num_gates,
num_wires, the per-port wire counts, and the wire identifiers — parses
as a non-negative integer below 2^32, with a failed u32 parse fatal for
its line and every successfully stored value the exact integer of its
token; the port-count token alone is parsed with 64-bit usize range, and
an over-32-bit port count instead fails the structural token-count check
whenever the line's remaining-token count differs from it.  Concrete
negative, over-range and non-numeric tokens make the whole parse
fail. -/
theorem numeric_tokens_u32_strict :
    (∀ (t : String) (n : Nat), parseU32 t = some n → n < 2 ^ 32) ∧
    (∀ (t : String) (n : Nat), parseUsize t = some n → n < 2 ^ 64) ∧
    (∀ (line t0 : String), (splitWhitespace line)[0]? = some t0 →
      parseU32 t0 = none → parse_header_general line = .error .malformedNumber) ∧
    (∀ (line t0 t1 : String) (n : Nat), (splitWhitespace line)[0]? = some t0 →
      parseU32 t0 = some n → (splitWhitespace line)[1]? = some t1 →
      parseU32 t1 = none → parse_header_general line = .error .malformedNumber) ∧
    (∀ (line : String) (a b : Nat), parse_header_general line = .ok (a, b) →
      ∃ t0 t1, (splitWhitespace line)[0]? = some t0 ∧ parseU32 t0 = some a ∧
        (splitWhitespace line)[1]? = some t1 ∧ parseU32 t1 = some b) ∧
    (∀ (line t0 t : String) (n : Nat), (splitWhitespace line)[0]? = some t0 →
      parseUsize t0 = some n → ((splitWhitespace line).drop 1).length = n →
      t ∈ (splitWhitespace line).drop 1 → parseU32 t = none →
      parse_header_io_wires line = .error .malformedNumber) ∧
    (∀ (line t0 : String) (n : Nat) (ws : List Nat) (i y : Nat),
      (splitWhitespace line)[0]? = some t0 → parseUsize t0 = some n →
      parse_header_io_wires line = .ok ws → ws[i]? = some y →
      ∃ t, ((splitWhitespace line).drop 1)[i]? = some t ∧ parseU32 t = some y) ∧
    (∀ (toks : List String) (g : Gate), parse_gate_xor toks = .ok g →
      ∃ ta tb tc a b c, toks[2]? = some ta ∧ parseU32 ta = some a ∧
        toks[3]? = some tb ∧ parseU32 tb = some b ∧
        toks[4]? = some tc ∧ parseU32 tc = some c ∧ g = Gate.XOR a b c) ∧
    (∀ (toks : List String) (g : Gate), parse_gate_and toks = .ok g →
      ∃ ta tb tc a b c, toks[2]? = some ta ∧ parseU32 ta = some a ∧
        toks[3]? = some tb ∧ parseU32 tb = some b ∧
        toks[4]? = some tc ∧ parseU32 tc = some c ∧ g = Gate.AND a b c) ∧
    (∀ (toks : List String) (g : Gate), parse_gate_inv toks = .ok g →
      ∃ ta tb a b, toks[2]? = some ta ∧ parseU32 ta = some a ∧
        toks[3]? = some tb ∧ parseU32 tb = some b ∧ g = Gate.INV a b) ∧
    (∀ (line t0 : String) (n : Nat), (splitWhitespace line)[0]? = some t0 →
      parseUsize t0 = some n → 2 ^ 32 ≤ n →
      ((splitWhitespace line).drop 1).length ≠ n →
      parse_header_io_wires line = .error .structuralError) ∧
    Circuit.parse "4 8\n1 1\n1 1\n2 1 -1 1 4 AND" = .error .malformedNumber ∧
    Circuit.parse "4294967296 8\n1 1\n1 1" = .error .malformedNumber ∧
    Circuit.parse "4 8\n1 abc\n1 1" = .error .malformedNumber ∧
    Circuit.parse "4 8\nabc 1\n1 1" = .error .malformedNumber ∧
    Circuit.parse "4 8\n4294967296 1\n1 1" = .error .structuralError := by
  refine ⟨?_, ?_, ?_, ?_, ?_, ?_, ?_, ?_, ?_, ?_, ?_,
    by rfl, by rfl, by rfl, by rfl, by rfl⟩
  · intro t n h
    simp only [parseU32, parseRadix10] at h
    split at h
    · exact absurd h (by simp)
    · split at h
      · split at h
        · simp only [Option.some_inj] at h
          subst h
          assumption
        · exact absurd h (by simp)
      · exact absurd h (by simp)
  · intro t n h
    simp only [parseUsize, parseRadix10] at h
    split at h
    · exact absurd h (by simp)
    · split at h
      · split at h
        · simp only [Option.some_inj] at h
          subst h
          assumption
        · exact absurd h (by simp)
      · exact absurd h (by simp)
  · intro line t0 h0 hbad
    simp [parse_header_general, getIdx, parseU32E, h0, hbad]
  · intro line t0 t1 n h0 ha h1 hbad
    simp [parse_header_general, getIdx, parseU32E, h0, ha, h1, hbad]
  · intro line a b h
    exact parse_header_general_ok_fields h
  · intro line t0 t n h0 hn hlen hmem hbad
    have hlen2 : (splitWhitespace line).length - 1 = n := by simpa using hlen
    have hred : parse_header_io_wires line =
        mapParse parseU32E ((splitWhitespace line).drop 1) := by
      simp [parse_header_io_wires, getIdx, parseUsizeE, h0, hn, hlen2]
    rw [hred]
    exact mapParse_parseU32E_error hmem hbad
  · intro line t0 n ws i y h0 hn hok hy
    by_cases hlen : (splitWhitespace line).length - 1 = n
    · have hred : parse_header_io_wires line =
          mapParse parseU32E ((splitWhitespace line).drop 1) := by
        simp [parse_header_io_wires, getIdx, parseUsizeE, h0, hn, hlen]
      rw [hred] at hok
      obtain ⟨t, ht, hft⟩ := mapParse_ok_get hok i y hy
      exact ⟨t, ht, parseU32_of_E_ok hft⟩
    · have herr : parse_header_io_wires line = .error .structuralError := by
        simp [parse_header_io_wires, getIdx, parseUsizeE, h0, hn, hlen]
      rw [herr] at hok
      exact absurd hok (by simp)
  · intro toks g h
    exact parse_gate_xor_ok_fields h
  · intro toks g h
    exact parse_gate_and_ok_fields h
  · intro toks g h
    exact parse_gate_inv_ok_fields h
  · intro line t0 n h0 hn hge hlen
    have hlen2 : ¬((splitWhitespace line).length - 1 = n) := by simpa using hlen
    simp [parse_header_io_wires, getIdx, parseUsizeE, h0, hn, hlen2]

/-- C8 witness: a non-numeric num_wires token is fatal for the first
header line, and the over-32-bit port count "4294967296" fails the
structural check on a line with one trailing token. -/
theorem numeric_tokens_u32_strict_witness :
    parse_header_general "4 x" = .error .malformedNumber ∧
    parse_header_io_wires "4294967296 1" = .error .structuralError :=
  ⟨numeric_tokens_u32_strict.2.2.2.1 "4 x" "4" "x" 4
     (by decide) (by decide) (by decide) (by decide),
   numeric_tokens_u32_strict.2.2.2.2.2.2.2.2.2.2.1 "4294967296 1" "4294967296"
     4294967296 (by decide) (by rfl) (by decide) (by decide)⟩
